import Mathlib

/-!
Verification development for the `torchcontroldiffeq` repository
(file `torchcontroldiffeq/cdeint_module.py`).

The module is shallowly embedded: tensors are shapes together with
row-major rational data and a `requires_grad` flag; Python exceptions
are an explicit error type; the external calls performed by the code
(`X.derivative`, `func`, the `torchdiffeq` solver) are recorded in an
event trace so that statements about call counts, call arguments and
call order can be made.
-/

/-- Python exceptions that the embedded code can raise. -/
inductive PyError
  | valueError (msg : String)
  | attributeError (msg : String)
  | indexError (msg : String)
deriving DecidableEq

instance (ε α : Type) [DecidableEq ε] [DecidableEq α] : DecidableEq (Except ε α) := fun a b =>
  match a, b with
  | .error e, .error f =>
    if h : e = f then .isTrue (by rw [h]) else .isFalse (by intro hc; cases hc; exact h rfl)
  | .ok x, .ok y =>
    if h : x = y then .isTrue (by rw [h]) else .isFalse (by intro hc; cases hc; exact h rfl)
  | .error _, .ok _ => .isFalse (by intro hc; cases hc)
  | .ok _, .error _ => .isFalse (by intro hc; cases hc)

/-- A tensor: a shape, row-major rational data, and the requires_grad flag.
Rational entries stand in for floating-point entries; the claims proved
below concern shapes, call structure and exact arithmetic identities. -/
structure Tensor where
  shape : List Nat
  data : List ℚ
  requiresGrad : Bool
deriving DecidableEq

instance : Inhabited Tensor := ⟨{ shape := [], data := [], requiresGrad := false }⟩

/-- Flat (row-major) element access, defaulting to 0 out of range. -/
def Tensor.get (t : Tensor) (i : Nat) : ℚ := t.data.getD i 0

/-- Embedding of `Tensor.detach()`: same value, removed from the gradient
graph, so the result does not require grad. -/
def Tensor.detach (t : Tensor) : Tensor :=
  { shape := t.shape, data := t.data, requiresGrad := false }

/-- Embedding of `Tensor.size(i)` for a possibly negative dimension index,
as used at lines 131 and 136 of cdeint_module.py with `-2` and `-1`.
PyTorch raises IndexError when the index is out of range. -/
def Tensor.size (t : Tensor) (i : Int) : Except PyError Nat :=
  let nd : Int := t.shape.length
  if i < -nd ∨ nd ≤ i then
    .error (.indexError "Dimension out of range")
  else if i < 0 then
    .ok (t.shape.getD (i + nd).toNat 0)
  else
    .ok (t.shape.getD i.toNat 0)

/-- Embedding of `t[0]` on a tensor, as used at line 117 of
cdeint_module.py: indexing selects the leading slice; it raises
IndexError on a 0-dim tensor and on an empty leading dimension. -/
def Tensor.index0 (t : Tensor) : Except PyError Tensor :=
  match t.shape with
  | [] => .error (.indexError "invalid index of a 0-dim tensor")
  | d :: rest =>
    if d = 0 then
      .error (.indexError "index 0 is out of bounds for dimension 0 with size 0")
    else
      .ok { shape := rest, data := t.data.take rest.prod, requiresGrad := t.requiresGrad }

/-- Embedding of `tensor.unsqueeze(-1)`: append a trailing dimension of
extent 1; row-major data is unchanged. -/
def Tensor.unsqueezeLast (t : Tensor) : Tensor :=
  { shape := t.shape ++ [1], data := t.data, requiresGrad := t.requiresGrad }

/-- Embedding of `tensor.squeeze(-1)`: drop the trailing dimension when its
extent is 1, otherwise leave the tensor unchanged; data is unchanged. -/
def Tensor.squeezeLast (t : Tensor) : Tensor :=
  if t.shape.getLastD 0 = 1 then
    { shape := t.shape.dropLast, data := t.data, requiresGrad := t.requiresGrad }
  else
    t

/-- Embedding of the batched matrix multiply `a @ b` for operands whose
batch dimensions agree, the only case produced by `_VectorField.__call__`
(shapes batch ++ [h, n] and batch ++ [n, m]): each batch slice is an
ordinary matrix product. The result requires grad when either operand
does. -/
def Tensor.matmul (a b : Tensor) : Tensor :=
  let n := a.shape.getLastD 1
  let m := b.shape.getLastD 1
  let h := a.shape.dropLast.getLastD 1
  let batchProd := a.shape.dropLast.dropLast.prod
  { shape := a.shape.dropLast ++ [m]
  , data := (List.range (batchProd * h * m)).map (fun idx =>
      let j := idx % m
      let i := idx / m % h
      let b0 := idx / m / h
      ((List.range n).map (fun k =>
        a.get ((b0 * h + i) * n + k) * b.get ((b0 * n + k) * m + j))).sum)
  , requiresGrad := a.requiresGrad || b.requiresGrad }

/-- Embedding of Python tuple indexing `shape[-1]`, as used at line 131 of
cdeint_module.py; raises IndexError on an empty tuple. -/
def tupleGetNeg1 (s : List Nat) : Except PyError Nat :=
  match s.reverse with
  | [] => .error (.indexError "tuple index out of range")
  | a :: _ => .ok a

/-- Embedding of the attribute access `z0.shape.size(-1)` at line 135 of
cdeint_module.py. The value `z0.shape` is a `torch.Size`, a tuple
subclass, which defines no method named `size`; the lookup therefore
raises AttributeError under Python semantics, whatever the arguments. -/
def torchSizeSize (_s : List Nat) (_i : Int) : Except PyError Nat :=
  .error (.attributeError "torch.Size object has no attribute size")

/-- Modelled from the spec: the control path abstraction (the `path`
module of this repository is not under src/). Per the spec it exposes
`derivative(time) -> tensor[..., input_channels]` and an accessible
mapping of named computed (non-leaf differentiable) parameters, whose
values are listed here; `isPathInstance` records whether the object is
an instance of `torchcontroldiffeq.Path`, which `cdeint` tests with
`isinstance`. -/
structure PathX where
  isPathInstance : Bool
  derivative : Tensor → Tensor
  controldiffeq_computed_parameters : List Tensor

/-- A user-supplied vector field: whether it is a `torch.nn.Module`, the
function it computes, and its own learnable parameters. -/
structure Func where
  isModule : Bool
  run : Tensor → Tensor
  params : List Tensor

/-- The `_VectorField` adaptor: the stored control path, the stored
vector-field function, and the two gradient-detachment flags computed in
`_VectorField.__init__`. -/
structure VectorField where
  X : PathX
  func : Func
  t_not_requires_grad : Bool
  z_not_requires_grad : Bool

/-- Embedding of `_VectorField.__init__` (lines 18 to 25): reject a
non-Module `func` with ValueError, then store `X`, `func`, and the two
flags `adjoint and not t_requires_grad`, `adjoint and not
z0_requires_grad`. -/
def VectorField.init (X : PathX) (func : Func)
    (t_requires_grad z0_requires_grad adjoint : Bool) : Except PyError VectorField :=
  if func.isModule = false then
    .error (.valueError "func must be a torch.nn.Module.")
  else
    .ok { X := X
        , func := func
        , t_not_requires_grad := adjoint && !t_requires_grad
        , z_not_requires_grad := adjoint && !z0_requires_grad }

/-- Fuel-indexed evaluation of the generator `_VectorField.parameters`
(lines 27 to 30). The body is

  yield from self.parameters()
  yield from self.X._controldiffeq_computed_parameters.values()

and under Python dynamic dispatch `self.parameters()` re-enters this same
overridden method, not the inherited `torch.nn.Module.parameters`.
Consuming the generator therefore recurses before producing any element.
Each unit of fuel allows one recursive expansion; `none` means evaluation
did not finish within the given fuel. -/
def VectorField.parametersFuel (self : VectorField) : Nat → Option (List Tensor)
  | 0 => none
  | fuel + 1 =>
    match self.parametersFuel fuel with
    | none => none
    | some ps => some (ps ++ self.X.controldiffeq_computed_parameters)

/-- The time value actually used inside `_VectorField.__call__`: detached
exactly when the `t_not_requires_grad` flag is set (lines 55 to 56). -/
def VectorField.tArg (self : VectorField) (t : Tensor) : Tensor :=
  if self.t_not_requires_grad then t.detach else t

/-- The state value actually used inside `_VectorField.__call__`: detached
exactly when the `z_not_requires_grad` flag is set (lines 59 to 60). -/
def VectorField.zArg (self : VectorField) (z : Tensor) : Tensor :=
  if self.z_not_requires_grad then z.detach else z

/-- External calls performed by the embedded code, in order. -/
inductive CallEvent
  | derivativeCall (arg : Tensor)
  | funcCall (arg : Tensor)
  | odeintCall (adjoint : Bool) (y0 : List Tensor) (t : Tensor)
deriving DecidableEq

/-- Does the event record a solver invocation. -/
def CallEvent.isOdeint : CallEvent → Bool
  | .odeintCall _ _ _ => true
  | _ => false

/-- Does the event record a call of `X.derivative`. -/
def CallEvent.isDeriv : CallEvent → Bool
  | .derivativeCall _ => true
  | _ => false

/-- Does the event record a call of `func`. -/
def CallEvent.isFunc : CallEvent → Bool
  | .funcCall _ => true
  | _ => false

/-- Embedding of `_VectorField.__call__` (lines 32 to 69): unwrap the
single-element state container, apply the detachment policy, query the
control derivative and the vector field, and return the batched
matrix-vector product re-wrapped in a single-element container. The
method assigns no attribute, so the adaptor state after the call (first
component) is the adaptor itself; the second component of the pair is
the trace of external calls made. -/
def VectorField.call (self : VectorField) (t : Tensor) (z_tup : List Tensor) :
    (VectorField × List Tensor) × List CallEvent :=
  let z := z_tup.getD 0 default
  let t1 := self.tArg t
  let z1 := self.zArg z
  let control_gradient := self.X.derivative t1
  let vector_field := self.func.run z1
  let out := (vector_field.matmul control_gradient.unsqueezeLast).squeezeLast
  ((self, [out]), [.derivativeCall t1, .funcCall z1])

/-- Message of the ValueError raised when X is not a Path instance
(lines 112 to 116). -/
def pathErrMsg : String :=
  "X must be an instance of torchcontroldiffeq.Path so that we can find the parameters we need to differentiate with respect to. Make sure that all leaf tensors requiring gradient are registered with the Path as a torch.nn.Parameter, and all the non-leaf tensors requiring gradient are registered with the Module as a torchcontroldiffeq.ComputedParameter."

/-- Message of the ValueError raised on a batch mismatch between
`X.derivative(t[0])` and `z0` (lines 118 to 123); it interpolates both
shapes and both batch-dimension tuples. -/
def batchMsgX (cg z0 : Tensor) : String :=
  let a := toString cg.shape
  let b := toString cg.shape.dropLast
  let c := toString z0.shape
  let d := toString z0.shape.dropLast
  s!"X.derivative did not return a tensor with the same number of batch dimensions as z0. X.derivative returned shape {a} (meaning {b} batch dimensions)), whilst z0 has shape {c} (meaning {d} batch dimensions)."

/-- Message of the ValueError raised on a batch mismatch between
`func(z0)` and `z0` (lines 125 to 130); it interpolates both shapes and
both batch-dimension tuples. -/
def batchMsgF (vf z0 : Tensor) : String :=
  let a := toString vf.shape
  let b := toString vf.shape.dropLast.dropLast
  let c := toString z0.shape
  let d := toString z0.shape.dropLast
  s!"func did not return a tensor with the same number of batch dimensions as z0. func returned shape {a} (meaning {b} batch dimensions)), whilst z0 has shape {c} (meaning {d} batch dimensions)."

/-- Message the hidden-channel ValueError at lines 132 to 135 attempts to
build; its fourth format argument is `z0.shape.size(-1)`, whose
evaluation raises before the message can be completed, so this string is
never produced at runtime. -/
def hiddenMsg (vf : Tensor) (vfH : Nat) (z0 : Tensor) (zC : Nat) : String :=
  let a := toString vf.shape
  let c := toString z0.shape
  s!"func did not return a tensor with the same number of hidden channels as z0. func returned shape {a} (meaning {vfH} channels), whilst z0 has shape {c} (meaning {zC} channels)."

/-- Message of the ValueError raised on an input-channel mismatch between
`func(z0)` and `X.derivative(t[0])` (lines 137 to 141). -/
def channelMsg (vf : Tensor) (vfI : Nat) (cg : Tensor) (cgI : Nat) : String :=
  let a := toString vf.shape
  let c := toString cg.shape
  s!"func did not return a tensor with the same number of input channels as X.derivative returned. func returned shape {a} (meaning {vfI} channels), whilst X.derivative returned shape {c} (meaning {cgI} channels)."

/-- Embedding of `cdeint` (lines 72 to 152). The external solver
(`torchdiffeq.odeint_adjoint` when adjoint, else `torchdiffeq.odeint`)
is a parameter `odeintF`, applied to the adjoint flag, the constructed
adaptor, the single-element initial-state container and the time grid.
The result pairs the Python outcome (the returned tensor, or the raised
exception) with the trace of external calls performed, in order. -/
def cdeint (odeintF : Bool → VectorField → List Tensor → Tensor → Tensor)
    (X : PathX) (z0 : Tensor) (func : Func) (t : Tensor) (adjoint : Bool) :
    Except PyError Tensor × List CallEvent :=
  if X.isPathInstance = false then
    (.error (.valueError pathErrMsg), [])
  else
    match t.index0 with
    | .error e => (.error e, [])
    | .ok t0 =>
      let control_gradient := X.derivative t0.detach
      let ev1 : List CallEvent := [.derivativeCall t0.detach]
      if control_gradient.shape.dropLast ≠ z0.shape.dropLast then
        (.error (.valueError (batchMsgX control_gradient z0)), ev1)
      else
        let vector_field := func.run z0
        let ev2 : List CallEvent := ev1 ++ [.funcCall z0]
        if vector_field.shape.dropLast.dropLast ≠ z0.shape.dropLast then
          (.error (.valueError (batchMsgF vector_field z0)), ev2)
        else
          match vector_field.size (-2), tupleGetNeg1 z0.shape with
          | .error e, _ => (.error e, ev2)
          | .ok _, .error e => (.error e, ev2)
          | .ok vfH, .ok zH =>
            if vfH ≠ zH then
              match torchSizeSize z0.shape (-1) with
              | .error e => (.error e, ev2)
              | .ok zC => (.error (.valueError (hiddenMsg vector_field vfH z0 zC)), ev2)
            else
              match vector_field.size (-1), control_gradient.size (-1) with
              | .error e, _ => (.error e, ev2)
              | .ok _, .error e => (.error e, ev2)
              | .ok vfI, .ok cgI =>
                if vfI ≠ cgI then
                  (.error (.valueError (channelMsg vector_field vfI control_gradient cgI)), ev2)
                else
                  match VectorField.init X func t.requiresGrad z0.requiresGrad adjoint with
                  | .error e => (.error e, ev2)
                  | .ok vf =>
                    (.ok (odeintF adjoint vf [z0] t), ev2 ++ [.odeintCall adjoint [z0] t])

/-- All-zero tensor of a given shape, used as concrete test data. -/
def zerosT (shape : List Nat) (rg : Bool) : Tensor :=
  { shape := shape, data := List.replicate shape.prod 0, requiresGrad := rg }

/-- Concrete time grid t = [0, 1] of shape (2,). -/
def tEx : Tensor := { shape := [2], data := [0, 1], requiresGrad := false }

/-- The value of tEx[0]: a 0-dim scalar tensor holding 0. -/
def t0Ex : Tensor := { shape := [], data := [0], requiresGrad := false }

/-- Concrete initial state z0 of shape (4, 3). -/
def z0Ex43 : Tensor := zerosT [4, 3] false

/-- Concrete initial state of shape (4, 3) that requires grad. -/
def z0Ex43g : Tensor := zerosT [4, 3] true

/-- Concrete control path whose derivative always has shape (4, 2). -/
def XEx : PathX :=
  { isPathInstance := true
  , derivative := fun _ => zerosT [4, 2] false
  , controldiffeq_computed_parameters := [] }

/-- Concrete well-formed vector field returning shape (4, 3, 2). -/
def funcGoodEx : Func :=
  { isModule := true, run := fun _ => zerosT [4, 3, 2] false, params := [] }

/-- Concrete vector field returning shape (4, 5, 2): a hidden-channel
mismatch against a state of shape (4, 3). -/
def funcHiddenEx : Func :=
  { isModule := true, run := fun _ => zerosT [4, 5, 2] false, params := [] }

/-- Concrete callable that is not a torch.nn.Module but returns the
well-formed shape (4, 3, 2). -/
def funcNonModEx : Func :=
  { isModule := false, run := fun _ => zerosT [4, 3, 2] false, params := [] }

/-- Concrete solver satisfying the stated contract: it returns a tensor of
shape len(time_grid) :: (shape of the initial state it is given). -/
def solverZeros : Bool → VectorField → List Tensor → Tensor → Tensor :=
  fun _ _ y0 tg =>
    { shape := tg.shape.getD 0 0 :: (y0.getD 0 default).shape
    , data := List.replicate ((tg.shape.getD 0 0 :: (y0.getD 0 default).shape).prod) 0
    , requiresGrad := false }

/-- C1: the claim states that `_VectorField.parameters` is a terminating
enumeration yielding both the learnable parameters of `func` and every
computed parameter registered by X. In the code, however, the first
statement of the generator is `yield from self.parameters()`, which
re-enters the same overridden method, so no amount of fuel lets the
enumeration produce a value: evaluation never terminates (a
RecursionError at runtime), and the parameters of `func` are never
yielded. -/
theorem vectorFieldParameters_never_terminates (vf : VectorField) (fuel : Nat) :
    vf.parametersFuel fuel = none := by
  induction fuel with
  | zero => rfl
  | succ n ih => simp [VectorField.parametersFuel, ih]

/-- C2: at the concrete input of the claim (z0 of shape (4, 3), control
derivative of shape (4, 2), vector field returning shape (4, 5, 2)), the
hidden-channel validation branch is taken, but building the ValueError
message evaluates `z0.shape.size(-1)` and `torch.Size` has no `size`
attribute, so cdeint raises an AttributeError rather than the claimed
ValueError citing 5 vs 3. -/
theorem cdeint_hidden_mismatch_attributeError :
    (cdeint solverZeros XEx z0Ex43 funcHiddenEx tEx true).1
      = .error (.attributeError "torch.Size object has no attribute size") := by
  decide

/-- Concrete initial state of shape (2, 3), used for the C6 scenario. -/
def z0Ex23 : Tensor := zerosT [2, 3] false

/-- Concrete control path whose derivative always has shape (2, 4). -/
def XEx2 : PathX :=
  { isPathInstance := true
  , derivative := fun _ => zerosT [2, 4] false
  , controldiffeq_computed_parameters := [] }

/-- Concrete vector field returning shape (2, 5, 4): hidden-channel
mismatch (5 vs 3) against a state of shape (2, 3), with matching batch
and input channels. -/
def funcHiddenEx2 : Func :=
  { isModule := true, run := fun _ => zerosT [2, 5, 4] false, params := [] }

/-- C6: the claim states that every configuration error is raised before
the adaptor is constructed and before any solver call, with a message
naming the two conflicting shapes. The first part holds, but on a
hidden-channel mismatch the error actually raised is an AttributeError
produced while formatting the message (the message naming the shapes is
never built), shown here at a concrete input: z0 of shape (2, 3) and a
vector field returning (2, 5, 4). No solver event appears in the trace. -/
theorem cdeint_hidden_mismatch_no_shape_message :
    (cdeint solverZeros XEx2 z0Ex23 funcHiddenEx2 tEx true).1
        = .error (.attributeError "torch.Size object has no attribute size")
      ∧ (cdeint solverZeros XEx2 z0Ex23 funcHiddenEx2 tEx true).2.any CallEvent.isOdeint
        = false := by
  decide

/-- C10: when X is a genuine Path instance and the time grid is an empty
one-dimensional tensor, cdeint indexes it at position 0 during
validation and fails there with an out-of-bounds IndexError; the trace
is empty, so the solver (and every other external call) is never
invoked. -/
theorem cdeint_empty_time_grid (odeintF : Bool → VectorField → List Tensor → Tensor → Tensor)
    (X : PathX) (z0 : Tensor) (func : Func) (t : Tensor) (adjoint : Bool)
    (hX : X.isPathInstance = true) (h : t.shape = [0]) :
    (cdeint odeintF X z0 func t adjoint).1
        = .error (.indexError "index 0 is out of bounds for dimension 0 with size 0")
      ∧ (cdeint odeintF X z0 func t adjoint).2 = [] := by
  have hidx : t.index0
      = .error (.indexError "index 0 is out of bounds for dimension 0 with size 0") := by
    simp [Tensor.index0, h]
  constructor <;> simp [cdeint, hX, hidx]

/-- Concrete empty one-dimensional time grid. -/
def tEmptyEx : Tensor := { shape := [0], data := [], requiresGrad := false }

/-- Witness for C10 at a concrete empty time grid. -/
theorem cdeint_empty_time_grid_witness :
    (cdeint solverZeros XEx z0Ex43 funcGoodEx tEmptyEx true).1
        = .error (.indexError "index 0 is out of bounds for dimension 0 with size 0")
      ∧ (cdeint solverZeros XEx z0Ex43 funcGoodEx tEmptyEx true).2 = [] :=
  cdeint_empty_time_grid solverZeros XEx z0Ex43 funcGoodEx tEmptyEx true rfl rfl

/-- C9: the `isinstance(func, torch.nn.Module)` test lives in
`_VectorField.__init__`, which cdeint reaches only after all shape
validation. First conjunct: for a non-Module func whose probe shapes are
all consistent, cdeint raises the ValueError about torch.nn.Module, the
shape probe has already invoked func exactly once at z0, and the solver
is never invoked. Second conjunct: a non-Module func whose output fails
the batch comparison triggers the shape ValueError instead of the type
error. -/
theorem cdeint_type_check_after_probe
    (odeintF : Bool → VectorField → List Tensor → Tensor → Tensor)
    (X : PathX) (z0 : Tensor) (func : Func) (t : Tensor) (adjoint : Bool) (t0 : Tensor)
    (hM : func.isModule = false)
    (hX : X.isPathInstance = true)
    (h0 : t.index0 = .ok t0) :
    (((X.derivative t0.detach).shape.dropLast = z0.shape.dropLast
       ∧ (func.run z0).shape.dropLast.dropLast = z0.shape.dropLast
       ∧ (∃ c, (func.run z0).size (-2) = .ok c ∧ tupleGetNeg1 z0.shape = .ok c)
       ∧ (∃ c, (func.run z0).size (-1) = .ok c
              ∧ (X.derivative t0.detach).size (-1) = .ok c)) →
      ((cdeint odeintF X z0 func t adjoint).1
          = .error (.valueError "func must be a torch.nn.Module.")
        ∧ (cdeint odeintF X z0 func t adjoint).2.filter CallEvent.isFunc = [.funcCall z0]
        ∧ (cdeint odeintF X z0 func t adjoint).2.any CallEvent.isOdeint = false))
    ∧ (((X.derivative t0.detach).shape.dropLast = z0.shape.dropLast
        ∧ (func.run z0).shape.dropLast.dropLast ≠ z0.shape.dropLast) →
      (cdeint odeintF X z0 func t adjoint).1
        = .error (.valueError (batchMsgF (func.run z0) z0))) := by
  constructor
  · rintro ⟨hb1, hb2, ⟨c, hc1, hc2⟩, ⟨d, hd1, hd2⟩⟩
    refine ⟨?_, ?_, ?_⟩ <;>
      simp [cdeint, hX, h0, hb1, hb2, hc1, hc2, hd1, hd2, VectorField.init, hM,
        List.filter, CallEvent.isFunc, CallEvent.isOdeint]
  · rintro ⟨hb1, hb2⟩
    simp [cdeint, hX, h0, hb1, hb2]

/-- Witness for C9: a concrete non-Module callable with fully consistent
shapes is rejected with the torch.nn.Module ValueError, after the probe
called it once at z0 and with no solver call recorded. -/
theorem cdeint_type_check_after_probe_witness :
    (cdeint solverZeros XEx z0Ex43 funcNonModEx tEx true).1
        = .error (.valueError "func must be a torch.nn.Module.")
      ∧ (cdeint solverZeros XEx z0Ex43 funcNonModEx tEx true).2.filter CallEvent.isFunc
        = [.funcCall z0Ex43]
      ∧ (cdeint solverZeros XEx z0Ex43 funcNonModEx tEx true).2.any CallEvent.isOdeint
        = false :=
  (cdeint_type_check_after_probe solverZeros XEx z0Ex43 funcNonModEx tEx true t0Ex
      rfl rfl (by decide)).1
    ⟨by decide, by decide, ⟨3, by decide, by decide⟩, ⟨2, by decide, by decide⟩⟩

/-- C7 counterexample: the claim states that both probe inputs are
detached before use. At a concrete input whose z0 requires grad, the
probe passes z0 itself to func (third fact: detaching z0 would change
it, and the recorded argument is z0, still requiring grad), so the state
probe input is not detached; only the time value is. -/
theorem cdeint_probe_z0_not_detached :
    (cdeint solverZeros XEx z0Ex43g funcGoodEx tEx true).2
        = [.derivativeCall t0Ex.detach, .funcCall z0Ex43g,
           .odeintCall true [z0Ex43g] tEx]
      ∧ z0Ex43g.requiresGrad = true
      ∧ z0Ex43g.detach ≠ z0Ex43g := by
  decide

/-- C7 amended: during validation cdeint evaluates X.derivative exactly
once, at the detached t[0] (a tensor that does not require grad), and
func exactly once, at z0 passed through unmodified (not detached);
whatever later validation branch is taken, no further probe call
occurs. -/
theorem cdeint_probe_calls
    (odeintF : Bool → VectorField → List Tensor → Tensor → Tensor)
    (X : PathX) (z0 : Tensor) (func : Func) (t : Tensor) (adjoint : Bool) (t0 : Tensor)
    (hX : X.isPathInstance = true)
    (h0 : t.index0 = .ok t0)
    (hb1 : (X.derivative t0.detach).shape.dropLast = z0.shape.dropLast) :
    (cdeint odeintF X z0 func t adjoint).2.filter CallEvent.isDeriv
        = [.derivativeCall t0.detach]
      ∧ (cdeint odeintF X z0 func t adjoint).2.filter CallEvent.isFunc
        = [.funcCall z0]
      ∧ (t0.detach).requiresGrad = false := by
  refine ⟨?_, ?_, rfl⟩ <;>
  · simp only [cdeint, hX, Bool.true_eq_false, if_false, h0, hb1]
    repeat' split
    all_goals simp_all [List.filter, CallEvent.isDeriv, CallEvent.isFunc]

/-- Witness for the amended C7 at a concrete input. -/
theorem cdeint_probe_calls_witness :
    (cdeint solverZeros XEx z0Ex43g funcGoodEx tEx true).2.filter CallEvent.isDeriv
        = [.derivativeCall t0Ex.detach]
      ∧ (cdeint solverZeros XEx z0Ex43g funcGoodEx tEx true).2.filter CallEvent.isFunc
        = [.funcCall z0Ex43g]
      ∧ (t0Ex.detach).requiresGrad = false :=
  cdeint_probe_calls solverZeros XEx z0Ex43g funcGoodEx tEx true t0Ex rfl (by decide)
    (by decide)

/-- C4: for an adaptor built by `_VectorField.__init__` from the flags
(t_requires_grad, z0_requires_grad, adjoint), every invocation passes to
X.derivative the detached time exactly when adjoint was true and t did
not require grad, and passes to func the detached state exactly when
adjoint was true and z0 did not require grad; in particular with adjoint
disabled both arguments are the originals, whatever the requires-grad
flags. -/
theorem vectorField_call_detach_policy
    (X : PathX) (func : Func) (treq zreq adjoint : Bool) (vf : VectorField)
    (h : VectorField.init X func treq zreq adjoint = .ok vf)
    (t z : Tensor) :
    ((vf.call t [z]).2
        = [.derivativeCall (if adjoint && !treq then t.detach else t),
           .funcCall (if adjoint && !zreq then z.detach else z)])
      ∧ (adjoint = false → (vf.call t [z]).2 = [.derivativeCall t, .funcCall z]) := by
  have hM : ¬func.isModule = false := by
    intro hc
    simp [VectorField.init, hc] at h
  have hvf : vf = { X := X, func := func,
                    t_not_requires_grad := adjoint && !treq,
                    z_not_requires_grad := adjoint && !zreq } := by
    simp [VectorField.init, hM] at h
    exact h.symm
  subst hvf
  constructor
  · simp [VectorField.call, VectorField.tArg, VectorField.zArg]
  · intro ha
    subst ha
    simp [VectorField.call, VectorField.tArg, VectorField.zArg]

/-- Concrete adaptor as constructed by cdeint for the well-formed example
with adjoint enabled and neither t nor z0 requiring grad: both
detachment flags are set. -/
def vfEx : VectorField :=
  { X := XEx, func := funcGoodEx, t_not_requires_grad := true, z_not_requires_grad := true }

/-- Witness for C4 at a concrete adaptor: both arguments are detached. -/
theorem vectorField_call_detach_policy_witness :
    (vfEx.call tEx [z0Ex43]).2 = [.derivativeCall tEx.detach, .funcCall z0Ex43.detach] :=
  (vectorField_call_detach_policy XEx funcGoodEx false false true vfEx rfl tEx z0Ex43).1

/-- C8: the two detachment flags are fixed at construction to
`adjoint and not t_requires_grad` and `adjoint and not z0_requires_grad`,
and an invocation of the adaptor leaves the whole adaptor state,
including both flags and the stored X and func, unchanged (the state
after the call equals the adaptor itself), so every solver step within
one integration call sees the same detachment decision. -/
theorem vectorField_flags_fixed
    (X : PathX) (func : Func) (treq zreq adjoint : Bool) (vf : VectorField)
    (h : VectorField.init X func treq zreq adjoint = .ok vf)
    (t : Tensor) (z_tup : List Tensor) :
    vf.t_not_requires_grad = (adjoint && !treq)
      ∧ vf.z_not_requires_grad = (adjoint && !zreq)
      ∧ (vf.call t z_tup).1.1 = vf := by
  have hM : ¬func.isModule = false := by
    intro hc
    simp [VectorField.init, hc] at h
  have hvf : vf = { X := X, func := func,
                    t_not_requires_grad := adjoint && !treq,
                    z_not_requires_grad := adjoint && !zreq } := by
    simp [VectorField.init, hM] at h
    exact h.symm
  subst hvf
  exact ⟨rfl, rfl, rfl⟩

/-- Witness for C8 at a concrete adaptor construction and invocation. -/
theorem vectorField_flags_fixed_witness :
    vfEx.t_not_requires_grad = (true && !false)
      ∧ vfEx.z_not_requires_grad = (true && !false)
      ∧ (vfEx.call tEx [z0Ex43]).1.1 = vfEx :=
  vectorField_flags_fixed XEx funcGoodEx false false true vfEx rfl tEx [z0Ex43]

/-- C3: for well-formed inputs (X a Path instance, func a Module, an
indexable time grid, and all four validation comparisons succeeding),
and for an external solver satisfying the stated contract of returning a
tensor of shape len(time_grid) :: (shape of the initial state it is
given), cdeint returns a tensor whose first dimension is len(t) and
whose trailing shape is the shape of z0. -/
theorem cdeint_ok_shape
    (odeintF : Bool → VectorField → List Tensor → Tensor → Tensor)
    (X : PathX) (z0 : Tensor) (func : Func) (t : Tensor) (adjoint : Bool) (t0 : Tensor)
    (hX : X.isPathInstance = true)
    (hM : func.isModule = true)
    (h0 : t.index0 = .ok t0)
    (hb1 : (X.derivative t0.detach).shape.dropLast = z0.shape.dropLast)
    (hb2 : (func.run z0).shape.dropLast.dropLast = z0.shape.dropLast)
    (hH : ∃ c, (func.run z0).size (-2) = .ok c ∧ tupleGetNeg1 z0.shape = .ok c)
    (hI : ∃ c, (func.run z0).size (-1) = .ok c
             ∧ (X.derivative t0.detach).size (-1) = .ok c)
    (hsolver : ∀ a vf y0 tg, (odeintF a vf y0 tg).shape
        = tg.shape.getD 0 0 :: (y0.getD 0 default).shape) :
    ∃ out, (cdeint odeintF X z0 func t adjoint).1 = .ok out
      ∧ out.shape = t.shape.getD 0 0 :: z0.shape := by
  obtain ⟨c, hc1, hc2⟩ := hH
  obtain ⟨d, hd1, hd2⟩ := hI
  refine ⟨odeintF adjoint
      { X := X, func := func,
        t_not_requires_grad := adjoint && !t.requiresGrad,
        z_not_requires_grad := adjoint && !z0.requiresGrad } [z0] t, ?_, ?_⟩
  · simp [cdeint, hX, h0, hb1, hb2, hc1, hc2, hd1, hd2, VectorField.init, hM]
  · simpa using hsolver adjoint _ [z0] t

/-- Witness for C3: the concrete scenario of the spec (z0 of shape
(4, 3), control derivative of shape (4, 2), vector field returning
(4, 3, 2), t of length 2) succeeds and returns shape (2, 4, 3). -/
theorem cdeint_ok_shape_witness :
    ∃ out, (cdeint solverZeros XEx z0Ex43 funcGoodEx tEx true).1 = .ok out
      ∧ out.shape = [2, 4, 3] := by
  obtain ⟨out, h1, h2⟩ := cdeint_ok_shape solverZeros XEx z0Ex43 funcGoodEx tEx true t0Ex
    rfl rfl (by decide) (by decide) (by decide)
    ⟨3, by decide, by decide⟩ ⟨2, by decide, by decide⟩ (fun _ _ _ _ => rfl)
  exact ⟨out, h1, by simpa using h2⟩

/-- Element access into a mapped range, inside bounds. -/
theorem getD_range_map (f : Nat → ℚ) (N i : Nat) (h : i < N) :
    ((List.range N).map f).getD i 0 = f i := by
  rw [List.getD_eq_getElem?_getD]
  simp [List.getElem?_map, List.getElem?_range, h]

/-- The sum of a function mapped over a range, as a Finset sum. -/
theorem listSum_range_map (f : Nat → ℚ) (n : Nat) :
    ((List.range n).map f).sum = ∑ k ∈ Finset.range n, f k := by
  induction n with
  | zero => simp
  | succ m ih =>
    rw [List.range_succ, List.map_append, List.sum_append, Finset.sum_range_succ, ih]
    simp

/-- Characterisation of the composite used in `_VectorField.__call__`:
for A of shape batch ++ [hc, nc] and C of shape batch ++ [nc], the
tensor `(A @ C.unsqueeze(-1)).squeeze(-1)` has shape batch ++ [hc] and
its entry at batch index b, channel index i is the contraction of row i
of the corresponding batch slice of A with the batch slice of C. -/
theorem matvec_spec (A C : Tensor) (batch : List Nat) (hc nc : Nat)
    (hA : A.shape = batch ++ [hc, nc]) (hC : C.shape = batch ++ [nc]) :
    (A.matmul C.unsqueezeLast).squeezeLast.shape = batch ++ [hc]
    ∧ ∀ b i, b < batch.prod → i < hc →
        (A.matmul C.unsqueezeLast).squeezeLast.get (b * hc + i)
          = ∑ k ∈ Finset.range nc, A.get ((b * hc + i) * nc + k) * C.get (b * nc + k) := by
  have hA2 : A.shape = (batch ++ [hc]) ++ [nc] := by simpa using hA
  have hM : A.matmul C.unsqueezeLast
      = { shape := (batch ++ [hc]) ++ [1]
        , data := (List.range (batch.prod * hc * 1)).map (fun idx =>
            ((List.range nc).map (fun k =>
              A.get ((idx / 1 / hc * hc + idx / 1 % hc) * nc + k)
                * C.unsqueezeLast.get ((idx / 1 / hc * nc + k) * 1 + idx % 1))).sum)
        , requiresGrad := A.requiresGrad || C.unsqueezeLast.requiresGrad } := by
    rw [Tensor.matmul]
    simp [hA2, Tensor.unsqueezeLast, hC]
  constructor
  · rw [hM, Tensor.squeezeLast]
    simp
  · intro b i hb hi
    have hcpos : 0 < hc := by omega
    have hidx : b * hc + i < batch.prod * hc * 1 := by
      have h1 : b * hc + i < (b + 1) * hc := by
        calc b * hc + i < b * hc + hc := by omega
        _ = (b + 1) * hc := by ring
      have h2 : (b + 1) * hc ≤ batch.prod * hc := Nat.mul_le_mul_right hc (by omega)
      omega
    rw [hM, Tensor.squeezeLast]
    simp only [List.getLastD_concat]
    simp only [if_true]
    show ((List.range (batch.prod * hc * 1)).map _).getD (b * hc + i) 0 = _
    rw [getD_range_map _ _ _ hidx]
    rw [listSum_range_map]
    apply Finset.sum_congr rfl
    intro k _
    have e2 : (b * hc + i) % hc = i := by
      rw [Nat.add_comm, Nat.add_mul_mod_self_right, Nat.mod_eq_of_lt hi]
    have e3 : (b * hc + i) / hc = b := by
      rw [Nat.add_comm, Nat.add_mul_div_right _ _ hcpos, Nat.div_eq_of_lt hi, Nat.zero_add]
    rw [Nat.div_one, e2, e3]
    simp [Tensor.unsqueezeLast, Tensor.get, Nat.mod_one, Nat.mul_one]

/-- C5: an invocation of the adaptor with a time t and a single-element
container holding z returns a single-element container whose element has
shape batch ++ [hidden_channels] and whose entries are the batched
matrix-vector product of the vector-field output (shape
batch ++ [hidden_channels, input_channels]) with the control derivative
(shape batch ++ [input_channels]), contracted over the input_channels
dimension. -/
theorem vectorField_call_product
    (vf : VectorField) (t z : Tensor) (batch : List Nat) (hc nc : Nat)
    (hvf : (vf.func.run (vf.zArg z)).shape = batch ++ [hc, nc])
    (hcg : (vf.X.derivative (vf.tArg t)).shape = batch ++ [nc]) :
    ∃ res, (vf.call t [z]).1.2 = [res]
      ∧ res.shape = batch ++ [hc]
      ∧ ∀ b i, b < batch.prod → i < hc →
          res.get (b * hc + i)
            = ∑ k ∈ Finset.range nc,
                (vf.func.run (vf.zArg z)).get ((b * hc + i) * nc + k)
                  * (vf.X.derivative (vf.tArg t)).get (b * nc + k) := by
  obtain ⟨hsh, hget⟩ :=
    matvec_spec (vf.func.run (vf.zArg z)) (vf.X.derivative (vf.tArg t)) batch hc nc hvf hcg
  exact ⟨_, rfl, hsh, hget⟩

/-- Concrete control path for the C5 witness: derivative [1, 2]. -/
def XW : PathX :=
  { isPathInstance := true
  , derivative := fun _ => { shape := [2], data := [1, 2], requiresGrad := false }
  , controldiffeq_computed_parameters := [] }

/-- Concrete vector field for the C5 witness: the 2 by 2 matrix
[[1, 2], [3, 4]]. -/
def funcW : Func :=
  { isModule := true
  , run := fun _ => { shape := [2, 2], data := [1, 2, 3, 4], requiresGrad := false }
  , params := [] }

/-- Concrete adaptor for the C5 witness (no detachment). -/
def vfW : VectorField :=
  { X := XW, func := funcW, t_not_requires_grad := false, z_not_requires_grad := false }

/-- Concrete state for the C5 witness. -/
def zW : Tensor := { shape := [2], data := [1, 1], requiresGrad := false }

/-- Witness for C5 at a concrete adaptor invocation: the output container
holds one tensor of shape [2] and its entry 1 is the contraction of row
1 of the vector-field output with the control derivative. -/
theorem vectorField_call_product_witness :
    ((vfW.call tEx [zW]).1.2.map Tensor.shape = [[2]])
    ∧ ((vfW.call tEx [zW]).1.2.getD 0 default).get (0 * 2 + 1)
        = ∑ k ∈ Finset.range 2,
            (vfW.func.run (vfW.zArg zW)).get ((0 * 2 + 1) * 2 + k)
              * (vfW.X.derivative (vfW.tArg tEx)).get (0 * 2 + k) := by
  obtain ⟨res, h1, h2, h3⟩ := vectorField_call_product vfW tEx zW [] 2 2 (by decide) (by decide)
  refine ⟨?_, ?_⟩
  · rw [h1]
    simp [h2]
  · rw [h1]
    simpa using h3 0 1 (by decide) (by decide)
